import Mathlib

/-!
Verification development for the CX-Bot repository (`src/app.py`), a Telegram
quiz bot built as a `ConversationHandler` finite-state machine with a
per-user duplicate-update guard, a retrying outbound send helper and a static
role-keyed question table.

String literals of the checked-in `app.py` are stored in a mac-roman-mangled
transcoding of the original UTF-8; they are reproduced here in their decoded
Ukrainian Cyrillic form, which is the text the program manipulates.

Python `str.casefold` is modelled on the alphabets actually occurring in the
program (ASCII letters, the Cyrillic block А..Я and the Ukrainian letters
Ё І Ї Є Ґ); `str.strip` is modelled as stripping ASCII whitespace.
-/

namespace CXBot

/-- One code point of Python `str.casefold`, restricted to the alphabets used
by the program: ASCII A-Z, Cyrillic А-Я (U+0410..U+042F) and Ё І Ї Є Ґ. -/
def caseFoldChar (c : Char) : Char :=
  if 'A' ≤ c ∧ c ≤ 'Z' then Char.ofNat (c.toNat + 32)
  else if 'А' ≤ c ∧ c ≤ 'Я' then Char.ofNat (c.toNat + 32)
  else if c = 'Ё' then 'ё'
  else if c = 'І' then 'і'
  else if c = 'Ї' then 'ї'
  else if c = 'Є' then 'є'
  else if c = 'Ґ' then 'ґ'
  else c

/-- Python `str.casefold` (restricted as documented above). -/
def caseFold (s : String) : String :=
  String.mk (s.data.map caseFoldChar)

/-- Python `str.strip()` with no argument: drop leading and trailing
whitespace. -/
def pyStrip (s : String) : String :=
  String.mk (((s.data.dropWhile Char.isWhitespace).reverse.dropWhile
    Char.isWhitespace).reverse)

/-- Python `str.replace(old, "")` for a single-character `old`: remove every
occurrence of that character. -/
def removeChar (c : Char) (s : String) : String :=
  String.mk (s.data.filter (fun d => d ≠ c))

/-- Python substring containment `needle in hay`. -/
def strContains (hay needle : String) : Bool :=
  (hay.data.tails.any (fun t => needle.data.isPrefixOf t))

/-- Python `str.endswith`. -/
def strEndsWith (s suffixStr : String) : Bool :=
  suffixStr.data.isSuffixOf s.data

/-- Python `str.lstrip("@")`: drop leading `@` characters. -/
def lstripAt (s : String) : String :=
  String.mk (s.data.dropWhile (fun c => c = '@'))

/-- `CONTACT_USERNAME = os.getenv("CONTACT_USERNAME", "")`; modelled with the
default value of the unset environment variable. -/
def CONTACT_USERNAME : String := ""

/-- `_cta_suffix()` from `app.py`. -/
def cta_suffix : String :=
  let h := lstripAt CONTACT_USERNAME
  if h ≠ "" then
    ("\n\nНапишіть мені в особисті: @" ++ h ++
      " — підкажу, як швидко підтягнути сервіс.")
  else ("")

/-- `qfmt(q, a, b, c)` from `app.py`: renders a question with its three
options, separated by zero-width-space lines. -/
def qfmt (q a b c : String) : String :=
  q ++ "\n\nA) " ++ a ++ "\n\u200B\nB) " ++ b ++ "\n\u200B\nC) " ++ c

/-- The `QUESTIONS` content table of `app.py`: a mapping (modelled as an
association list preserving the literal order) from role key to the ordered
list of `(prompt, correct_choice)` pairs. -/
def QUESTIONS : List (String × List (String × String)) := [
  ("Керівник", [
    (qfmt ("Як ви вимірюєте якість сервісу в клініці?")
      ("Основні орієнтири – фінансовий результат і завантаженість графіка; окремо сервіс не рахуємо.")
      ("Комбінуємо фінансові показники, повторні візити і структуровані відгуки пацієнтів.")
      ("Покладаємось на відчуття команди: що кажуть лікарі й адміністратори про реакцію пацієнтів."),
     "B"),
    (qfmt ("Як ви працюєте з відгуками пацієнтів?")
      ("Розбираємо відгуки точково: якщо з\u0027явився яскравий негатив або конфлікт, проговорюємо його й реагуємо адресно.")
      ("Маємо процес: збір, аналіз, пріоритизація змін, зворотний зв\u0027язок пацієнту і команді.")
      ("Частину відгуків збираємо, передаємо відповідальним, але системного аналізу й плану змін поки немає."),
     "B"),
    (qfmt ("Як часто ви переглядаєте сервісні стандарти або скрипти?")
      ("Маємо базові домовленості, але без прописаних стандартів – кожен трохи адаптує під себе.")
      ("Оновлюємо, коли бачимо, що з\u0027являється багато скарг або просідають показники.")
      ("Планово переглядаємо, тестуємо зміни на практиці і навчаємо команду."),
     "C"),
    (qfmt ("Що для вас ключовий сигнал ризику в клієнтському досвіді?")
      ("Різке падіння завантаженості лікарів, особливо поза сезонними коливаннями.")
      ("Зростає частка скасувань і no-show та падає частка повторних візитів.")
      ("Зменшується активність пацієнтів у комунікації та зворотному зв\u0027язку, менше відгуків і рекомендацій."),
     "B"),
    (qfmt ("Як ви впроваджуєте зміни, пов\u0027язані з сервісом?")
      ("Озвучуємо нові правила на загальній зустрічі, далі очікуємо, що команда підхопить.")
      ("Тестуємо на невеликій групі, даємо чітку інструкцію, тренуємо, заміряємо ефект.")
      ("Спершу обговорюємо ідею з командою, дивимось на готовність, а вже потім поступово переходимо до змін без чітких етапів."),
     "B")]),
  ("Лікар", [
    (qfmt ("Як ви починаєте консультацію з новим пацієнтом?")
      ("Коротко вітаюся і переходжу до клінічних питань, щоб не втрачати час.")
      ("Коротко знайомлюсь, з\u0027ясовую очікування, попередній досвід лікування і рівень тривоги.")
      ("Уточнюю головну скаргу і запит пацієнта, далі вже в процесі розмови розкриваємо інші деталі."),
     "B"),
    (qfmt ("Як ви пояснюєте план лікування?")
      ("Пояснюю основний план простими словами, показую схему і орієнтовну суму, деталі залишаю на етап лікування.")
      ("Пояснюю варіанти з плюсами і мінусами, ризики, терміни, вартість простими словами, перевіряю розуміння.")
      ("Даю пацієнту матеріали (брошура, посилання) і пропоную обговорити питання, якщо щось залишиться незрозумілим."),
     "B"),
    (qfmt ("Як реагуєте на страх або тривогу пацієнта в кріслі?")
      ("Підтримую пацієнта словами, намагаюся працювати швидше й акуратніше, щоб скоріше зняти напругу.")
      ("Уточнюю, чого саме боїться, пояснюю кроки, домовляюсь про стоп-сигнал, даю час адаптуватися.")
      ("Пропоную додаткові методи – заспокійливі, седацію чи перенесення візиту, якщо бачу сильний страх."),
     "B"),
    (qfmt ("Що ви робите після завершення складного лікування?")
      ("Коротко дякую за довіру, відповідаю на запитання, якщо виникли, і передаю пацієнта адміністратору.")
      ("Підсумовую зроблене, повторюю ключові рекомендації, з\u0027ясовую, чи є питання, домовляюсь про наступний контакт.")
      ("Усні рекомендації даю мінімально, з акцентом на тому, що повний перелік пацієнт отримає в письмовому вигляді від адміністратора."),
     "B"),
    (qfmt ("Як ви реагуєте на скаргу, що стосується сервісу, але не якості лікування?")
      ("Вислуховую і прошу вирішити це питання на рівні адміністратора чи керівника, бо це їхня зона відповідальності.")
      ("Вислуховую, визнаю дискомфорт пацієнта, пояснюю, що передам інформацію керівнику або адміну і проконтролюю, щоб ситуація не повторилась.")
      ("Пояснюю, чому процес організований саме так, і пропоную пацієнту залишити офіційний відгук, якщо щось не влаштовує."),
     "B")]),
  ("Адміністратор", [
    (qfmt ("Як ви починаєте телефонну розмову з новим пацієнтом?")
      ("Коротко представляю клініку і питаю, як можу допомогти, без детального вивчення історії.")
      ("Представляюся, уточнюю, як до людини звертатися, коротко виявляю запит і очікування.")
      ("Дізнаюся, з яким запитом звертається пацієнт, і одразу пропоную найближчі вікна в графіку."),
     "B"),
    (qfmt ("Як ви працюєте з перенесеннями або скасуваннями візитів?")
      ("Уточнюю, чи зручно перенести на іншу дату, але якщо пацієнту складно – просто скасовую без додаткових розмов.")
      ("Уточнюю причину, пропоную найближчу альтернативу, нагадую про важливість лікування.")
      ("Записую скасування і прошу пацієнта самостійно звернутися, коли йому буде зручно, без пропозиції альтернатив."),
     "B"),
    (qfmt ("Що ви робите, якщо пацієнт чекає довше, ніж обіцяли?")
      ("Слідкую за часом і, якщо затримка не критична, просто інколи озвучую, що лікар трохи затримується.")
      ("Попереджаю про затримку, орієнтовний час очікування, пропоную воду або каву, за потреби перенесення.")
      ("Коли пацієнт заходить до кабінету, обов\u0027язково вибачаюся за затримку і коротко пояснюю причину, без додаткових дій."),
     "B"),
    (qfmt ("Як ви завершуєте візит на рецепції?")
      ("Озвучую суму, нагадую про наступні кроки (наприклад, контрольний візит), але без детального підсумку прийому.")
      ("Підсумовую, що сьогодні було зроблено, нагадую ключові рекомендації лікаря, узгоджую наступний візит.")
      ("Видаю чек і, за потреби, друковані рекомендації, відповідаю на запитання, якщо вони виникають."),
     "B"),
    (qfmt ("Як ви фіксуєте і передаєте запити або зауваження пацієнтів команді?")
      ("Фіксую ключові моменти в особистих нотатках чи месенджері й передаю їх відповідній людині усно або в чаті.")
      ("Фіксую ключові деталі в CRM або картці пацієнта і передаю відповідальній особі, повертаюсь із зворотним зв\u0027язком до пацієнта, якщо обіцяла.")
      ("Передаю команді тільки ті зауваження, які повторюються або виглядають серйозними, дрібні відмічаю для себе."),
     "B")])]

/-- Role lookup in the `QUESTIONS` dict: `QUESTIONS[role]`, as an `Option`. -/
def lookupQ (role : String) : Option (List (String × String)) :=
  (QUESTIONS.find? (fun p => p.1 = role)).map (fun p => p.2)

/-- `ROLE_KB`: the role-menu reply keyboard layout. -/
def ROLE_KB : List (List String) :=
  [["👩‍💼 Керівник"], ["🦷 Лікар"], ["💬 Адміністратор"], ["🔚 Завершити"]]

/-- `ABC_KB`: the answer reply keyboard layout. -/
def ABC_KB : List (List String) :=
  [["A", "B", "C"], ["🔚 Завершити"]]

/-- `ROLE_BUTTONS` from `app.py`. -/
def ROLE_BUTTONS : List String :=
  ["👩‍💼 Керівник", "🦷 Лікар", "💬 Адміністратор"]

/-- `ABC_BUTTONS` from `app.py`. -/
def ABC_BUTTONS : List String := ["A", "B", "C"]

/-- `EXIT_BUTTONS` from `app.py`. -/
def EXIT_BUTTONS : List String := ["🔚 Завершити", "Завершити"]

/-- `is_exit(text)` from `app.py`: casefold, strip, remove the decorative
`🔚` glyph, strip again, and suffix-match the lowercase exit word. -/
def is_exit (text : String) : Bool :=
  let t := pyStrip (caseFold text)
  let t := pyStrip (removeChar '🔚' t)
  strEndsWith t ("завершити")

/-- Welcome text sent by `start`. -/
def welcome_text : String :=
  "Привіт! Я — CX Bot.\nДопоможу Вам побачити клініку очима пацієнтів.\nЦе короткий тест із 5 запитань. Відповідайте чесно — тут не буває «поганих» результатів.\n\nОберіть свою роль 👇"

/-- Text sent by `cancel`. -/
def cancel_text : String :=
  "Готово. Можете пройти мікроаудит ще раз — просто оберіть роль нижче 👇"

/-- Reprompt text sent by `ask_again`. -/
def hint_text : String :=
  "Будь ласка, оберіть A, B або C 👇"

/-- Final-summary variant used when `errors >= 2`. -/
def msg_many_errors : String :=
  "Є сильні сторони і моменти, які можуть зіпсувати враження пацієнтів. Я можу показати, як це виглядає їх очима."

/-- Final-summary variant used when `errors < 2`. -/
def msg_few_errors : String :=
  "У Вас добрий рівень розуміння клієнтського досвіду. Ви відчуваєте, що сервіс — це більше, ніж просто послуга."

/-- The rendered final message of `handle_answer`, including the reported
`correct_count = 5 - errors` (subtraction over `Int`, as in Python). -/
def final_text (errors : Nat) : String :=
  let correct_count : Int := 5 - (errors : Int)
  let msg := if errors ≥ 2 then msg_many_errors else msg_few_errors
  msg ++ "\n\n✅ Ви відповіли правильно на " ++ toString correct_count ++
    " із 5." ++ cta_suffix ++ "\n\nХочете пройти тест у іншій ролі?"

/-! ## Retry policy (`RetryConfig`, the delay decision of `retry_async`) -/

/-- The retryable error kinds of `RetryConfig.retry_on`; a `RetryAfter`
carries the server-supplied wait hint (Python float, modelled as `ℚ`). -/
inductive TgError where
  | timedOut : TgError
  | retryAfter (hint : ℚ) : TgError
  | networkError : TgError
  | gsAPIError : TgError
deriving DecidableEq

/-- `RetryConfig` from `app.py` (delays as `ℚ` seconds). -/
structure RetryConfig where
  attempts : Nat := 5
  delays : List ℚ := [1, 2, 2, 3, 5]
  jitter : ℚ := 0

/-- `TG_RETRY = RetryConfig()`. -/
def TG_RETRY : RetryConfig := {}

/-- The sleep duration chosen by `retry_async` after the `attempt`-th failure
(`attempt` is the already-incremented counter, so `attempt ≥ 1`), given the
caught error and the jitter sample `u` drawn from `random.uniform(0, jitter)`.
A `RetryAfter` whose `retry_after` attribute is truthy (non-zero) is used
as-is; otherwise the ladder entry `delays[min(attempt-1, len(delays)-1)]`
is used, plus jitter when configured. -/
def retryDelay (cfg : RetryConfig) (attempt : Nat) (e : TgError) (u : ℚ) : ℚ :=
  match e with
  | .retryAfter hint =>
      if hint ≠ 0 then hint
      else ladder cfg attempt u
  | _ => ladder cfg attempt u
where
  ladder (cfg : RetryConfig) (attempt : Nat) (u : ℚ) : ℚ :=
    let delay := (cfg.delays.getD (min (attempt - 1) (cfg.delays.length - 1)) 0)
    if cfg.jitter ≠ 0 then delay + u else delay

/-! ## The conversation engine

`context.user_data` is a per-user string-keyed dict; the keys the program
uses are `role`, `i`, `errors`, `_last_update_id` and `last_hint_ts`, each
modelled as an `Option` field (`none` = key absent). `dict.clear()` resets
all of them. -/

/-- The per-user `context.user_data` dict. -/
structure UserData where
  role : Option String := none
  i : Option Nat := none
  errors : Option Nat := none
  lastUpdateId : Option Nat := none
  lastHintTs : Option ℚ := none
deriving DecidableEq

/-- `context.user_data.clear()` leaves the empty dict. -/
def UserData.empty : UserData := {}

/-- One inbound Telegram update: `update.update_id` (optional) and the
message text. -/
structure Event where
  updateId : Option Nat := none
  text : String
deriving DecidableEq

/-- The two `ConversationHandler` states `CHOOSING_ROLE, ASKING = range(2)`.
`none` at the `BotState` level stands for "no active conversation"
(initial, or after `ConversationHandler.END`). -/
inductive ConvState where
  | choosing : ConvState
  | asking : ConvState
deriving DecidableEq

/-- The full per-user state: active conversation state plus `user_data`. -/
structure BotState where
  conv : Option ConvState := none
  ud : UserData := {}
deriving DecidableEq

/-- The initial state of a fresh user. -/
def initState : BotState := {}

/-- One outbound `reply_text`: the text and the reply-keyboard layout. -/
abbrev Send := String × List (List String)

/-- Exceptions that can escape a handler: a `safe_reply` failure after the
retry budget (`sendFail`) or a Python `KeyError`/`IndexError` from a missing
dict key / out-of-range list index (`lookupFail`). -/
inductive Exn where
  | sendFail : Exn
  | lookupFail : Exn
deriving DecidableEq

/-- Result of running one handler: the `user_data` after all mutations that
happened to execute, the messages sent, and either the returned conversation
state (`none` = `ConversationHandler.END`) or the escaped exception. -/
structure HRes where
  ud : UserData
  out : List Send
  res : Except Exn (Option ConvState)

/-- Whether `_dedupe` reports a duplicate: true iff the update has an id
equal to the recorded `_last_update_id`. -/
def dedupeHit (ud : UserData) (ev : Event) : Bool :=
  match ev.updateId with
  | none => false
  | some uid => ud.lastUpdateId = some uid

/-- `_dedupe(update, context)` from `app.py`: returns the duplicate flag and
records the update id onto `_last_update_id` when the event is fresh and has
an id. An id-less update is never a duplicate and records nothing. -/
def dedupe (ud : UserData) (ev : Event) : Bool × UserData :=
  match ev.updateId with
  | none => (false, ud)
  | some uid =>
      if ud.lastUpdateId = some uid then (true, ud)
      else (false, { ud with lastUpdateId := some uid })

/-- `start`: on duplicate, return `CHOOSING_ROLE` untouched; otherwise clear
`user_data` and send the welcome with the role keyboard. `ok` tells whether
the `safe_reply` succeeds; a failed send escapes as `sendFail` with the
already-cleared `user_data` kept (Python mutates the dict in place). -/
def start (ok : Bool) (ud : UserData) (ev : Event) : HRes :=
  let d := dedupe ud ev
  if d.1 then ⟨d.2, [], .ok (some .choosing)⟩
  else if ok then ⟨UserData.empty, [(welcome_text, ROLE_KB)], .ok (some .choosing)⟩
  else ⟨UserData.empty, [], .error .sendFail⟩

/-- `cancel`: same shape as `start` with the reset confirmation text. -/
def cancel (ok : Bool) (ud : UserData) (ev : Event) : HRes :=
  let d := dedupe ud ev
  if d.1 then ⟨d.2, [], .ok (some .choosing)⟩
  else if ok then ⟨UserData.empty, [(cancel_text, ROLE_KB)], .ok (some .choosing)⟩
  else ⟨UserData.empty, [], .error .sendFail⟩

/-- `choose_role`: dedupe; exit texts delegate to `cancel`, non-role texts to
`start` (both re-run `_dedupe` on the already-updated dict); otherwise pick
the role by substring, set `role`, `i = 0`, `errors = 0`, pop
`last_hint_ts`, and send question 0 with the A/B/C keyboard. -/
def choose_role (ok : Bool) (ud : UserData) (ev : Event) : HRes :=
  let d := dedupe ud ev
  if d.1 then ⟨d.2, [], .ok (some .choosing)⟩
  else
    let ud := d.2
    let txt := pyStrip ev.text
    if EXIT_BUTTONS.contains txt || is_exit txt then cancel ok ud ev
    else if ¬ ROLE_BUTTONS.contains txt then start ok ud ev
    else
      let role := if strContains txt ("Керівник") then ("Керівник" : String)
                  else if strContains txt ("Лікар") then ("Лікар" : String)
                  else ("Адміністратор" : String)
      let ud := { ud with role := some role, i := some 0, errors := some 0,
                          lastHintTs := none }
      match lookupQ role with
      | none => ⟨ud, [], .error .lookupFail⟩
      | some qs =>
          match qs.get? 0 with
          | none => ⟨ud, [], .error .lookupFail⟩
          | some q =>
              if ok then ⟨ud, [(q.1, ABC_KB)], .ok (some .asking)⟩
              else ⟨ud, [], .error .sendFail⟩

/-- `ask_again`: dedupe; re-send the "choose A/B/C" hint only when at least
2 seconds have passed since `last_hint_ts` (default 0.0), recording the send
time after a successful send. -/
def ask_again (ok : Bool) (ud : UserData) (ev : Event) (now : ℚ) : HRes :=
  let d := dedupe ud ev
  if d.1 then ⟨d.2, [], .ok (some .asking)⟩
  else
    let ud := d.2
    let last := ud.lastHintTs.getD 0
    if now - last ≥ 2 then
      if ok then ⟨{ ud with lastHintTs := some now }, [(hint_text, ABC_KB)],
                  .ok (some .asking)⟩
      else ⟨ud, [], .error .sendFail⟩
    else ⟨ud, [], .ok (some .asking)⟩

/-- `handle_answer`: dedupe; fall back to `start` when `role` or `i` is
missing; exit texts delegate to `cancel`, non-answer texts to `ask_again`;
otherwise grade `QUESTIONS[role][i]` (a `KeyError`/`IndexError` is
`lookupFail`), increment `errors` on mismatch, advance `i`, and either send
the next question or send the final summary, (fire-and-forget) log the
outcome, clear `user_data` and end the conversation. -/
def handle_answer (ok : Bool) (ud : UserData) (ev : Event) (now : ℚ) : HRes :=
  let d := dedupe ud ev
  if d.1 then ⟨d.2, [], .ok (some .asking)⟩
  else
    let ud := d.2
    match ud.role, ud.i with
    | none, _ => start ok ud ev
    | some _, none => start ok ud ev
    | some role, some i =>
        let txt := pyStrip ev.text
        if EXIT_BUTTONS.contains txt || is_exit txt then cancel ok ud ev
        else if ¬ ABC_BUTTONS.contains txt then ask_again ok ud ev now
        else
          match lookupQ role with
          | none => ⟨ud, [], .error .lookupFail⟩
          | some qs =>
              match qs.get? i with
              | none => ⟨ud, [], .error .lookupFail⟩
              | some q =>
                  let graded : Except Exn UserData :=
                    if txt ≠ q.2 then
                      match ud.errors with
                      | none => .error .lookupFail
                      | some e => .ok { ud with errors := some (e + 1) }
                    else .ok ud
                  match graded with
                  | .error ex => ⟨ud, [], .error ex⟩
                  | .ok ud =>
                      let ud := { ud with i := some (i + 1) }
                      if i + 1 < 5 then
                        match qs.get? (i + 1) with
                        | none => ⟨ud, [], .error .lookupFail⟩
                        | some q2 =>
                            if ok then ⟨ud, [(q2.1, ABC_KB)], .ok (some .asking)⟩
                            else ⟨ud, [], .error .sendFail⟩
                      else
                        match ud.errors with
                        | none => ⟨ud, [], .error .lookupFail⟩
                        | some e =>
                            if ok then
                              ⟨UserData.empty, [(final_text e, ROLE_KB)], .ok none⟩
                            else ⟨ud, [], .error .sendFail⟩

/-! ## Routing (`ConversationHandler` with the registered `MessageHandler`s)

Entry points (checked only when no conversation is active, in order):
`CommandHandler("start")`, the exact-match exit regex, the exact-match role
regex, the exact-match A/B/C regex. Per-state handlers:
`CHOOSING_ROLE ↦ [exit, role, any non-command text → start]`,
`ASKING ↦ [exit, A/B/C, any non-command text → ask_again]`; the lone
fallback is the exit regex again, so unmatched commands are simply not
handled. `filters.COMMAND` is modelled as a leading `/`; the `/start`
command is modelled as the bare text `/start`. -/

/-- The five registered callbacks. -/
inductive Handler where
  | hStart : Handler
  | hCancel : Handler
  | hChooseRole : Handler
  | hAnswer : Handler
  | hAskAgain : Handler
deriving DecidableEq

/-- `filters.Regex(r"^(🔚 Завершити|Завершити)$")`. -/
def matchesExit (t : String) : Bool := EXIT_BUTTONS.contains t

/-- `filters.Regex(r"^(👩‍💼 Керівник|🦷 Лікар|💬 Адміністратор)$")`. -/
def matchesRole (t : String) : Bool := ROLE_BUTTONS.contains t

/-- `filters.Regex(r"^(A|B|C)$")`. -/
def matchesABC (t : String) : Bool := ABC_BUTTONS.contains t

/-- `filters.TEXT & ~filters.COMMAND`: non-empty text not starting with
a bot command. -/
def matchesPlainText (t : String) : Bool := t ≠ "" && !t.startsWith ("/")

/-- Which callback the `ConversationHandler` dispatches the update to, if
any, given the active conversation state and the message text. -/
def route (conv : Option ConvState) (t : String) : Option Handler :=
  match conv with
  | none =>
      if t = "/start" then some .hStart
      else if matchesExit t then some .hCancel
      else if matchesRole t then some .hChooseRole
      else if matchesABC t then some .hAnswer
      else none
  | some .choosing =>
      if matchesExit t then some .hCancel
      else if matchesRole t then some .hChooseRole
      else if matchesPlainText t then some .hStart
      else none
  | some .asking =>
      if matchesExit t then some .hCancel
      else if matchesABC t then some .hAnswer
      else if matchesPlainText t then some .hAskAgain
      else none

/-- Run the dispatched callback. -/
def runHandler (h : Handler) (ok : Bool) (ud : UserData) (ev : Event)
    (now : ℚ) : HRes :=
  match h with
  | .hStart => start ok ud ev
  | .hCancel => cancel ok ud ev
  | .hChooseRole => choose_role ok ud ev
  | .hAnswer => handle_answer ok ud ev now
  | .hAskAgain => ask_again ok ud ev now

/-- Result of processing one update: successor state, outbound sends, and
the exception that escaped the callback, if any (in which case the
`ConversationHandler` keeps the previous conversation state while the
in-place `user_data` mutations persist). -/
structure StepRes where
  st : BotState
  out : List Send
  err : Option Exn

/-- Process one inbound update against a user's state. -/
def step (ok : Bool) (ev : Event) (now : ℚ) (s : BotState) : StepRes :=
  match route s.conv ev.text with
  | none => ⟨s, [], none⟩
  | some h =>
      let r := runHandler h ok s.ud ev now
      match r.res with
      | .ok conv2 => ⟨⟨conv2, r.ud⟩, r.out, none⟩
      | .error ex => ⟨⟨s.conv, r.ud⟩, r.out, some ex⟩

/-- Reachability of a per-user state from the initial state under arbitrary
inbound updates, with outbound sends succeeding. -/
inductive Reachable : BotState → Prop where
  | init : Reachable initState
  | next (s : BotState) (ev : Event) (now : ℚ) :
      Reachable s → Reachable (step true ev now s).st

/-! ## Invariant infrastructure -/

/-- The well-formedness of `user_data` that `ASKING` relies on: a valid role
with its 5 questions, an in-range question index and an error tally bounded
by the index. -/
def AskInv (ud : UserData) : Prop :=
  ∃ r qs k e, ud.role = some r ∧ lookupQ r = some qs ∧ qs.length = 5 ∧
    ud.i = some k ∧ k < 5 ∧ ud.errors = some e ∧ e ≤ k

/-- The reachable-state invariant: outside a conversation `user_data` is
empty, and in `ASKING` it is well-formed. -/
def Inv (s : BotState) : Prop :=
  (s.conv = none → s.ud = UserData.empty) ∧
  (s.conv = some .asking → AskInv s.ud)

theorem dedupe_hit_ud (ud : UserData) (ev : Event)
    (h : (dedupe ud ev).1 = true) : (dedupe ud ev).2 = ud := by
  cases hu : ev.updateId with
  | none => simp [dedupe, hu] at h
  | some uid =>
      by_cases he : ud.lastUpdateId = some uid
      · simp [dedupe, hu, he]
      · simp [dedupe, hu, he] at h

theorem dedupe_fields (ud : UserData) (ev : Event) :
    ((dedupe ud ev).2).role = ud.role ∧ ((dedupe ud ev).2).i = ud.i ∧
    ((dedupe ud ev).2).errors = ud.errors ∧
    ((dedupe ud ev).2).lastHintTs = ud.lastHintTs := by
  unfold dedupe
  cases ev.updateId with
  | none => exact ⟨rfl, rfl, rfl, rfl⟩
  | some uid => by_cases he : ud.lastUpdateId = some uid <;> simp [he]

theorem start_res (ud : UserData) (ev : Event) :
    (start true ud ev).res = .ok (some .choosing) := by
  by_cases h : (dedupe ud ev).1 = true <;> simp [start, h]

theorem cancel_res (ud : UserData) (ev : Event) :
    (cancel true ud ev).res = .ok (some .choosing) := by
  by_cases h : (dedupe ud ev).1 = true <;> simp [cancel, h]

theorem ask_again_spec (ud : UserData) (ev : Event) (now : ℚ) :
    (ask_again true ud ev now).res = .ok (some .asking) ∧
    (ask_again true ud ev now).ud.role = ud.role ∧
    (ask_again true ud ev now).ud.i = ud.i ∧
    (ask_again true ud ev now).ud.errors = ud.errors := by
  obtain ⟨h1, h2, h3, _⟩ := dedupe_fields ud ev
  by_cases hd : (dedupe ud ev).1 = true
  · simp [ask_again, hd, dedupe_hit_ud ud ev hd]
  · by_cases ht : now - ((dedupe ud ev).2.lastHintTs.getD 0) ≥ 2 <;>
      simp [ask_again, hd, ht, h1, h2, h3]

theorem lookupQ_shape (r : String)
    (h : r = "Керівник" ∨ r = "Лікар" ∨ r = "Адміністратор") :
    ∃ qs, lookupQ r = some qs ∧ qs.length = 5 := by
  rcases h with h | h | h <;> subst h <;> exact ⟨_, rfl, rfl⟩

theorem choose_role_cases (ud : UserData) (ev : Event) :
    (choose_role true ud ev).res = .ok (some .choosing) ∨
    ((choose_role true ud ev).res = .ok (some .asking) ∧
      AskInv (choose_role true ud ev).ud) := by
  by_cases hd : (dedupe ud ev).1 = true
  · left; simp [choose_role, hd]
  by_cases hex : (pyStrip ev.text ∈ EXIT_BUTTONS ∨ is_exit (pyStrip ev.text) = true)
  · left; simp [choose_role, hd, hex, cancel_res]
  by_cases hrole : pyStrip ev.text ∈ ROLE_BUTTONS
  case neg => left; simp [choose_role, hd, hex, hrole, start_res]
  by_cases h1 : strContains (pyStrip ev.text) ("Керівник") = true
  · obtain ⟨qs, hq, hlen⟩ := lookupQ_shape ("Керівник") (.inl rfl)
    obtain ⟨q0, h0⟩ : ∃ q0, qs[0]? = some q0 :=
      ⟨_, List.getElem?_eq_getElem (by omega)⟩
    right
    constructor
    · simp [choose_role, hd, hex, hrole, h1, hq, h0]
    · refine ⟨_, qs, 0, 0, ?_, hq, hlen, ?_, by omega, ?_, le_rfl⟩ <;>
        simp [choose_role, hd, hex, hrole, h1, hq, h0]
  by_cases h2 : strContains (pyStrip ev.text) ("Лікар") = true
  · obtain ⟨qs, hq, hlen⟩ := lookupQ_shape ("Лікар") (.inr (.inl rfl))
    obtain ⟨q0, h0⟩ : ∃ q0, qs[0]? = some q0 :=
      ⟨_, List.getElem?_eq_getElem (by omega)⟩
    right
    constructor
    · simp [choose_role, hd, hex, hrole, h1, h2, hq, h0]
    · refine ⟨_, qs, 0, 0, ?_, hq, hlen, ?_, by omega, ?_, le_rfl⟩ <;>
        simp [choose_role, hd, hex, hrole, h1, h2, hq, h0]
  · obtain ⟨qs, hq, hlen⟩ := lookupQ_shape ("Адміністратор") (.inr (.inr rfl))
    obtain ⟨q0, h0⟩ : ∃ q0, qs[0]? = some q0 :=
      ⟨_, List.getElem?_eq_getElem (by omega)⟩
    right
    constructor
    · simp [choose_role, hd, hex, hrole, h1, h2, hq, h0]
    · refine ⟨_, qs, 0, 0, ?_, hq, hlen, ?_, by omega, ?_, le_rfl⟩ <;>
        simp [choose_role, hd, hex, hrole, h1, h2, hq, h0]

theorem abc_guards (t : String) (ht : t = "A" ∨ t = "B" ∨ t = "C") :
    pyStrip t = t ∧ (t ∈ EXIT_BUTTONS) = False ∧ is_exit t = false ∧
      (t ∈ ABC_BUTTONS) = True := by
  rcases ht with h | h | h <;> subst h <;>
    exact ⟨by decide, eq_false (by decide), by decide, eq_true (by decide)⟩

theorem handle_answer_mid (ud : UserData) (r : String)
    (qs : List (String × String)) (k e : Nat) (ev : Event) (now : ℚ)
    (hr : ud.role = some r) (hi : ud.i = some k) (he : ud.errors = some e)
    (hq : lookupQ r = some qs) (hlen : qs.length = 5)
    (ht : ev.text = "A" ∨ ev.text = "B" ∨ ev.text = "C")
    (hd : (dedupe ud ev).1 = false) (hk5 : k + 1 < 5) :
    ∃ q q2, qs[k]? = some q ∧ qs[k + 1]? = some q2 ∧
      handle_answer true ud ev now =
        ⟨{ (dedupe ud ev).2 with
             i := some (k + 1),
             errors := some (if ev.text = q.2 then e else e + 1) },
         [(q2.1, ABC_KB)], .ok (some .asking)⟩ := by
  obtain ⟨hr2, hi2, he2, _⟩ := dedupe_fields ud ev
  rw [hr] at hr2; rw [hi] at hi2; rw [he] at he2
  obtain ⟨q, hgk⟩ : ∃ q, qs[k]? = some q :=
    ⟨_, List.getElem?_eq_getElem (by omega)⟩
  obtain ⟨q2, hgk2⟩ : ∃ q2, qs[k + 1]? = some q2 :=
    ⟨_, List.getElem?_eq_getElem (by omega)⟩
  refine ⟨q, q2, hgk, hgk2, ?_⟩
  obtain ⟨hs, hg1, hg2, hg3⟩ := abc_guards ev.text ht
  by_cases hm : ev.text = q.2
  · simp [handle_answer, hd, hr2, hi2, he2, hs, hg1, hg2, hg3, hq, hgk,
      hgk2, hk5]
    simp [hm, hr2, hi2, he2]
  · simp [handle_answer, hd, hr2, hi2, he2, hs, hg1, hg2, hg3, hq, hgk,
      hgk2, hk5, hm]

theorem handle_answer_last (ud : UserData) (r : String)
    (qs : List (String × String)) (k e : Nat) (ev : Event) (now : ℚ)
    (hr : ud.role = some r) (hi : ud.i = some k) (he : ud.errors = some e)
    (hq : lookupQ r = some qs) (hlen : qs.length = 5)
    (ht : ev.text = "A" ∨ ev.text = "B" ∨ ev.text = "C")
    (hd : (dedupe ud ev).1 = false) (hk : k < 5) (hk5 : ¬ (k + 1 < 5)) :
    ∃ q, qs[k]? = some q ∧
      handle_answer true ud ev now =
        ⟨UserData.empty,
         [(final_text (if ev.text = q.2 then e else e + 1), ROLE_KB)],
         .ok none⟩ := by
  obtain ⟨hr2, hi2, he2, _⟩ := dedupe_fields ud ev
  rw [hr] at hr2; rw [hi] at hi2; rw [he] at he2
  obtain ⟨q, hgk⟩ : ∃ q, qs[k]? = some q :=
    ⟨_, List.getElem?_eq_getElem (by omega)⟩
  refine ⟨q, hgk, ?_⟩
  obtain ⟨hs, hg1, hg2, hg3⟩ := abc_guards ev.text ht
  by_cases hm : ev.text = q.2
  · simp [handle_answer, hd, hr2, hi2, he2, hs, hg1, hg2, hg3, hq, hgk, hk5]
    simp [hm, hr2, hi2, he2]
  · simp [handle_answer, hd, hr2, hi2, he2, hs, hg1, hg2, hg3, hq, hgk,
      hk5, hm]

theorem handle_answer_norole (ud : UserData) (ev : Event) (now : ℚ)
    (hri : ud.role = none ∨ ud.i = none) (hd : (dedupe ud ev).1 = false) :
    handle_answer true ud ev now = start true (dedupe ud ev).2 ev := by
  obtain ⟨hr2, hi2, _, _⟩ := dedupe_fields ud ev
  rcases hri with h | h
  · rw [h] at hr2
    simp [handle_answer, hd, hr2]
  · rw [h] at hi2
    cases hrr : (dedupe ud ev).2.role with
    | none => simp [handle_answer, hd, hrr]
    | some r => simp [handle_answer, hd, hrr, hi2]

theorem start_after_dedupe (ud : UserData) (ev : Event)
    (hd : (dedupe ud ev).1 = false) :
    start true (dedupe ud ev).2 ev =
      match ev.updateId with
      | none => ⟨UserData.empty, [(welcome_text, ROLE_KB)], .ok (some .choosing)⟩
      | some uid => ⟨{ ud with lastUpdateId := some uid }, [], .ok (some .choosing)⟩ := by
  cases hu : ev.updateId with
  | none => simp [start, dedupe, hu]
  | some uid =>
      have h2 : (dedupe ud ev).2 = { ud with lastUpdateId := some uid } := by
        simp only [dedupe, hu] at hd ⊢
        by_cases he : ud.lastUpdateId = some uid
        · simp [he] at hd
        · simp [he]
      rw [h2]
      simp [start, dedupe, hu]

theorem handle_answer_dup (ud : UserData) (ev : Event) (now : ℚ)
    (hd : (dedupe ud ev).1 = true) :
    handle_answer true ud ev now = ⟨ud, [], .ok (some .asking)⟩ := by
  simp [handle_answer, hd, dedupe_hit_ud ud ev hd]

theorem dedupe_empty (ev : Event) : (dedupe UserData.empty ev).1 = false := by
  cases hu : ev.updateId <;> simp [dedupe, hu, UserData.empty]

theorem AskInv_of_fields (ud ud2 : UserData) (h : AskInv ud)
    (hr : ud2.role = ud.role) (hi : ud2.i = ud.i)
    (he : ud2.errors = ud.errors) : AskInv ud2 := by
  obtain ⟨r, qs, k, e, h1, h2, h3, h4, h5, h6, h7⟩ := h
  exact ⟨r, qs, k, e, hr.trans h1, h2, h3, hi.trans h4, h5, he.trans h6, h7⟩

theorem step_of_ok (s : BotState) (ev : Event) (now : ℚ) (hdl : Handler)
    (conv2 : Option ConvState) (hrt : route s.conv ev.text = some hdl)
    (hres : (runHandler hdl true s.ud ev now).res = .ok conv2) :
    (step true ev now s).st = ⟨conv2, (runHandler hdl true s.ud ev now).ud⟩ ∧
    (step true ev now s).err = none ∧
    (step true ev now s).out = (runHandler hdl true s.ud ev now).out := by
  simp only [step, hrt]
  rcases hr : runHandler hdl true s.ud ev now with ⟨ud2, out2, res2⟩
  rw [hr] at hres
  cases res2 with
  | error ex => exact absurd hres (by simp)
  | ok c =>
      cases hres
      exact ⟨rfl, rfl, rfl⟩

theorem route_askAgain (conv : Option ConvState) (t : String)
    (h : route conv t = some .hAskAgain) : conv = some .asking := by
  rcases conv with _ | c
  · exfalso
    by_cases h1 : t = "/start" <;> by_cases h2 : matchesExit t = true <;>
      by_cases h3 : matchesRole t = true <;>
      by_cases h4 : matchesABC t = true <;>
      simp [route, h1, h2, h3, h4] at h
  · cases c
    · exfalso
      by_cases h2 : matchesExit t = true <;>
        by_cases h3 : matchesRole t = true <;>
        by_cases h5 : matchesPlainText t = true <;>
        simp [route, h2, h3, h5] at h
    · rfl

theorem route_answer (conv : Option ConvState) (t : String)
    (h : route conv t = some .hAnswer) :
    (conv = none ∨ conv = some .asking) ∧
      (t = "A" ∨ t = "B" ∨ t = "C") := by
  have habc : matchesABC t = true → (t = "A" ∨ t = "B" ∨ t = "C") := by
    intro hm
    simp [matchesABC, ABC_BUTTONS] at hm
    tauto
  rcases conv with _ | c
  · refine ⟨.inl rfl, habc ?_⟩
    by_cases h4 : matchesABC t = true
    · exact h4
    · exfalso
      by_cases h1 : t = "/start" <;> by_cases h2 : matchesExit t = true <;>
        by_cases h3 : matchesRole t = true <;>
        simp [route, h1, h2, h3, h4] at h
  · cases c
    · exfalso
      by_cases h2 : matchesExit t = true <;>
        by_cases h3 : matchesRole t = true <;>
        by_cases h5 : matchesPlainText t = true <;>
        simp [route, h2, h3, h5] at h
    · refine ⟨.inr rfl, habc ?_⟩
      by_cases h4 : matchesABC t = true
      · exact h4
      · exfalso
        by_cases h2 : matchesExit t = true <;>
          by_cases h5 : matchesPlainText t = true <;>
          simp [route, h2, h4, h5] at h

theorem step_preserves (ev : Event) (now : ℚ) (s : BotState) (h : Inv s) :
    Inv (step true ev now s).st ∧ (step true ev now s).err = none := by
  obtain ⟨hnone, hask⟩ := h
  rcases hrt : route s.conv ev.text with _ | hdl
  · simp only [step, hrt]
    exact ⟨⟨hnone, hask⟩, trivial⟩
  cases hdl with
  | hStart =>
      obtain ⟨h1, h2, _⟩ := step_of_ok s ev now .hStart (some .choosing) hrt
        (start_res s.ud ev)
      rw [h1]
      exact ⟨⟨by simp, by simp⟩, h2⟩
  | hCancel =>
      obtain ⟨h1, h2, _⟩ := step_of_ok s ev now .hCancel (some .choosing) hrt
        (cancel_res s.ud ev)
      rw [h1]
      exact ⟨⟨by simp, by simp⟩, h2⟩
  | hChooseRole =>
      rcases choose_role_cases s.ud ev with hcr | ⟨hcr, hinv⟩
      · obtain ⟨h1, h2, _⟩ := step_of_ok s ev now .hChooseRole (some .choosing)
          hrt hcr
        rw [h1]
        exact ⟨⟨by simp, by simp⟩, h2⟩
      · obtain ⟨h1, h2, _⟩ := step_of_ok s ev now .hChooseRole (some .asking)
          hrt hcr
        rw [h1]
        exact ⟨⟨by simp, fun _ => hinv⟩, h2⟩
  | hAskAgain =>
      have hc := route_askAgain s.conv ev.text hrt
      obtain ⟨hres, hfr, hfi, hfe⟩ := ask_again_spec s.ud ev now
      obtain ⟨h1, h2, _⟩ := step_of_ok s ev now .hAskAgain (some .asking) hrt
        hres
      rw [h1]
      refine ⟨⟨by simp, fun _ => ?_⟩, h2⟩
      exact AskInv_of_fields _ _ (hask hc) hfr hfi hfe
  | hAnswer =>
      obtain ⟨hconv, ht⟩ := route_answer s.conv ev.text hrt
      rcases hconv with hc | hc
      · -- no active conversation: user_data is empty, falls through to start
        have hud : s.ud = UserData.empty := hnone hc
        have hd : (dedupe s.ud ev).1 = false := by rw [hud]; exact dedupe_empty ev
        have heq := handle_answer_norole s.ud ev now (by rw [hud]; exact .inl rfl) hd
        rw [start_after_dedupe s.ud ev hd] at heq
        cases hu : ev.updateId with
        | none =>
            rw [hu] at heq
            obtain ⟨h1, h2, _⟩ := step_of_ok s ev now .hAnswer (some .choosing)
              hrt (by rw [runHandler, heq])
            rw [h1]
            exact ⟨⟨by simp, by simp⟩, h2⟩
        | some uid =>
            rw [hu] at heq
            obtain ⟨h1, h2, _⟩ := step_of_ok s ev now .hAnswer (some .choosing)
              hrt (by rw [runHandler, heq])
            rw [h1]
            exact ⟨⟨by simp, by simp⟩, h2⟩
      · -- mid-conversation answer
        have hinv := hask hc
        by_cases hd : (dedupe s.ud ev).1 = true
        · have heq := handle_answer_dup s.ud ev now hd
          obtain ⟨h1, h2, _⟩ := step_of_ok s ev now .hAnswer (some .asking)
            hrt (by rw [runHandler, heq])
          rw [h1]
          refine ⟨⟨by simp, fun _ => ?_⟩, h2⟩
          rw [runHandler, heq]
          exact hinv
        · obtain ⟨r, qs, k, e, hr, hq, hlen, hi, hk, he, hek⟩ := hinv
          rw [Bool.not_eq_true] at hd
          by_cases hk5 : k + 1 < 5
          · obtain ⟨q, q2, hgk, hgk2, heq⟩ := handle_answer_mid s.ud r qs k e
              ev now hr hi he hq hlen ht hd hk5
            obtain ⟨h1, h2, _⟩ := step_of_ok s ev now .hAnswer (some .asking)
              hrt (by rw [runHandler, heq])
            rw [h1]
            refine ⟨⟨by simp, fun _ => ?_⟩, h2⟩
            rw [runHandler, heq]
            obtain ⟨hr2, hi2, he2, _⟩ := dedupe_fields s.ud ev
            refine ⟨r, qs, k + 1, if ev.text = q.2 then e else e + 1,
              by simp [hr2, hr], hq, hlen, by simp, hk5, by simp, ?_⟩
            split <;> omega
          · obtain ⟨q, hgk, heq⟩ := handle_answer_last s.ud r qs k e ev now
              hr hi he hq hlen ht hd hk hk5
            obtain ⟨h1, h2, _⟩ := step_of_ok s ev now .hAnswer none hrt
              (by rw [runHandler, heq])
            rw [h1]
            refine ⟨⟨fun _ => ?_, by simp⟩, h2⟩
            rw [runHandler, heq]

theorem reachable_inv (s : BotState) (h : Reachable s) : Inv s := by
  induction h with
  | init => exact ⟨fun _ => rfl, fun hc => by simp [initState] at hc⟩
  | next s ev now _ ih => exact (step_preserves ev now s ih).1

/-! ## Running a full quiz -/

/-- Process a sequence of id-less answer events (at time 0), threading the
state and concatenating all outbound sends. -/
def answersRun (s : BotState) (toks : List String) : BotState × List Send :=
  match toks with
  | [] => (s, [])
  | t :: ts =>
      let r := step true ⟨none, t⟩ 0 s
      let rest := answersRun r.st ts
      (rest.1, r.out ++ rest.2)

/-- Number of submitted tokens that differ from the correct choice, grading
token `i` of the list against question `k + i`. -/
def wrongFrom (qs : List (String × String)) : Nat → List String → Nat
  | _, [] => 0
  | k, t :: ts =>
      (match qs[k]? with
       | some q => if t = q.2 then 0 else 1
       | none => 0) + wrongFrom qs (k + 1) ts

/-- Number of submitted tokens equal to the correct choice. -/
def rightFrom (qs : List (String × String)) : Nat → List String → Nat
  | _, [] => 0
  | k, t :: ts =>
      (match qs[k]? with
       | some q => if t = q.2 then 1 else 0
       | none => 0) + rightFrom qs (k + 1) ts

theorem answersRun_nil (s : BotState) : answersRun s [] = (s, []) := rfl

theorem answersRun_cons (s : BotState) (t : String) (ts : List String) :
    answersRun s (t :: ts) =
      ((answersRun (step true ⟨none, t⟩ 0 s).st ts).1,
       (step true ⟨none, t⟩ 0 s).out ++
         (answersRun (step true ⟨none, t⟩ 0 s).st ts).2) := rfl

theorem questions_shape : ∀ p ∈ QUESTIONS, p.2.length = 5 ∧
    ∀ q ∈ p.2, q.2 = "A" ∨ q.2 = "B" ∨ q.2 = "C" := by decide

theorem lookupQ_length (r : String) (qs : List (String × String))
    (hq : lookupQ r = some qs) : qs.length = 5 := by
  unfold lookupQ at hq
  cases hf : QUESTIONS.find? (fun p => p.1 = r) with
  | none => simp [hf] at hq
  | some p =>
      simp only [hf, Option.map] at hq
      cases hq
      exact (questions_shape p (List.mem_of_find?_eq_some hf)).1

theorem wrong_add_right (qs : List (String × String)) (k : Nat)
    (toks : List String) (h : k + toks.length ≤ qs.length) :
    wrongFrom qs k toks + rightFrom qs k toks = toks.length := by
  induction toks generalizing k with
  | nil => rfl
  | cons t ts ih =>
      have hk : k < qs.length := by simp at h; omega
      have hg : qs[k]? = some (qs.get ⟨k, hk⟩) := List.getElem?_eq_getElem hk
      have ih2 := ih (k + 1) (by simp at h ⊢; omega)
      show (match qs[k]? with
            | some q => if t = q.2 then 0 else 1
            | none => 0) + wrongFrom qs (k + 1) ts +
          ((match qs[k]? with
            | some q => if t = q.2 then 1 else 0
            | none => 0) + rightFrom qs (k + 1) ts) = ts.length + 1
      rw [hg]
      dsimp only
      by_cases hm : t = (qs.get ⟨k, hk⟩).2
      · rw [if_pos hm, if_pos hm]; omega
      · rw [if_neg hm, if_neg hm]; omega

theorem answersRun_spec (r : String) (qs : List (String × String))
    (hq : lookupQ r = some qs) (hlen : qs.length = 5) :
    ∀ (toks : List String) (k e : Nat) (m : Option Nat) (ts : Option ℚ),
      k + toks.length = 5 → toks ≠ [] →
      (∀ t ∈ toks, t = "A" ∨ t = "B" ∨ t = "C") →
      ∃ pre, answersRun ⟨some .asking, ⟨some r, some k, some e, m, ts⟩⟩ toks =
        (⟨none, UserData.empty⟩,
         pre ++ [(final_text (e + wrongFrom qs k toks), ROLE_KB)]) := by
  intro toks
  induction toks with
  | nil => intro k e m ts hk hne htoks; exact absurd rfl hne
  | cons t ts' ih =>
      intro k e m ts hk hne htoks
      have ht : t = "A" ∨ t = "B" ∨ t = "C" := htoks t (by simp)
      have hd : (dedupe (⟨some r, some k, some e, m, ts⟩ : UserData)
          ⟨none, t⟩).1 = false := rfl
      have hrt : route (some ConvState.asking)
          (Event.text ⟨none, t⟩) = some .hAnswer := by
        rcases ht with h | h | h <;> subst h <;> rfl
      rcases hts : ts' with _ | ⟨t2, ts''⟩
      all_goals subst hts
      · -- last answer of the quiz
        have hk4 : k < 5 := by simp at hk; omega
        have hk5 : ¬ (k + 1 < 5) := by simp at hk; omega
        obtain ⟨q, hgk, heq⟩ := handle_answer_last
          ⟨some r, some k, some e, m, ts⟩ r qs k e ⟨none, t⟩ 0
          rfl rfl rfl hq hlen ht hd hk4 hk5
        have heq2 : handle_answer true
            (⟨some r, some k, some e, m, ts⟩ : UserData) ⟨none, t⟩ 0 =
            ⟨UserData.empty,
             [(final_text (if t = q.2 then e else e + 1), ROLE_KB)],
             .ok none⟩ := heq
        obtain ⟨h1, h2, h3⟩ := step_of_ok
          ⟨some .asking, ⟨some r, some k, some e, m, ts⟩⟩ ⟨none, t⟩ 0
          .hAnswer none hrt (by rw [runHandler, heq2])
        refine ⟨[], ?_⟩
        have hrh : runHandler .hAnswer true
            (⟨some r, some k, some e, m, ts⟩ : UserData) ⟨none, t⟩ 0 =
            handle_answer true (⟨some r, some k, some e, m, ts⟩ : UserData)
              ⟨none, t⟩ 0 := rfl
        rw [answersRun_cons, h1, h3, hrh, heq2, answersRun_nil]
        have harg : e + wrongFrom qs k [t] =
            (if t = q.2 then e else e + 1) := by
          simp only [wrongFrom, hgk]
          by_cases hm : t = q.2 <;> simp [hm]
        rw [harg]
        simp
      · -- a later question follows
        have hk5 : k + 1 < 5 := by simp at hk; omega
        obtain ⟨q, q2, hgk, hgk2, heq⟩ := handle_answer_mid
          ⟨some r, some k, some e, m, ts⟩ r qs k e ⟨none, t⟩ 0
          rfl rfl rfl hq hlen ht hd hk5
        have heq2 : handle_answer true
            (⟨some r, some k, some e, m, ts⟩ : UserData) ⟨none, t⟩ 0 =
            ⟨⟨some r, some (k + 1), some (if t = q.2 then e else e + 1),
               m, ts⟩,
             [(q2.1, ABC_KB)], .ok (some .asking)⟩ := heq
        obtain ⟨h1, h2, h3⟩ := step_of_ok
          ⟨some .asking, ⟨some r, some k, some e, m, ts⟩⟩ ⟨none, t⟩ 0
          .hAnswer (some .asking) hrt (by rw [runHandler, heq2])
        obtain ⟨pre, hrun⟩ := ih (k + 1) (if t = q.2 then e else e + 1) m ts
          (by simp at hk ⊢; omega) (by simp)
          (fun x hx => htoks x (by simp [hx]))
        have harg : (if t = q.2 then e else e + 1) +
            wrongFrom qs (k + 1) (t2 :: ts'') =
            e + wrongFrom qs k (t :: t2 :: ts'') := by
          have hw : wrongFrom qs k (t :: t2 :: ts'') =
              (match qs[k]? with
               | some q => if t = q.2 then 0 else 1
               | none => 0) + wrongFrom qs (k + 1) (t2 :: ts'') := rfl
          rw [hw, hgk]
          by_cases hm : t = q.2
          · simp [hm]
          · simp [hm]
            omega
        refine ⟨(q2.1, ABC_KB) :: pre, ?_⟩
        have hrh : runHandler .hAnswer true
            (⟨some r, some k, some e, m, ts⟩ : UserData) ⟨none, t⟩ 0 =
            handle_answer true (⟨some r, some k, some e, m, ts⟩ : UserData)
              ⟨none, t⟩ 0 := rfl
        rw [answersRun_cons, h1, h3, hrh, heq2, hrun, harg]
        simp

/-! ## Claims -/

/-- C1: for every role key in the content table, the ordered question list
has exactly 5 entries, and every entry's correct choice is one of the fixed
answer tokens A, B, C. -/
theorem C1_content_table (p : String × List (String × String))
    (hp : p ∈ QUESTIONS) :
    p.2.length = 5 ∧ ∀ q ∈ p.2, q.2 = "A" ∨ q.2 = "B" ∨ q.2 = "C" :=
  questions_shape p hp

theorem C1_content_table_witness :
    (QUESTIONS.get ⟨0, by decide⟩).2.length = 5 ∧
    ∀ q ∈ (QUESTIONS.get ⟨0, by decide⟩).2,
      q.2 = "A" ∨ q.2 = "B" ∨ q.2 = "C" :=
  C1_content_table _ (QUESTIONS.get_mem _ _)

/-- C7: in every reachable session, whenever the conversation is in ASKING
the stored question index `i` satisfies `0 ≤ i < N` (with `N` the stored
role's question count) and the error tally satisfies `errors ≤ i`.
Reachability quantifies over arbitrary inbound events, with outbound sends
succeeding. -/
theorem C7_asking_invariant (s : BotState) (h : Reachable s)
    (hc : s.conv = some ConvState.asking) :
    ∃ r qs k e, s.ud.role = some r ∧ lookupQ r = some qs ∧
      s.ud.i = some k ∧ s.ud.errors = some e ∧ k < qs.length ∧ e ≤ k := by
  obtain ⟨r, qs, k, e, h1, h2, h3, h4, h5, h6, h7⟩ := (reachable_inv s h).2 hc
  exact ⟨r, qs, k, e, h1, h2, h4, h6, by omega, h7⟩

theorem C7_asking_invariant_witness :
    ∃ r qs k e,
      (step true ⟨some 1, "🦷 Лікар"⟩ 0 initState).st.ud.role = some r ∧
      lookupQ r = some qs ∧
      (step true ⟨some 1, "🦷 Лікар"⟩ 0 initState).st.ud.i = some k ∧
      (step true ⟨some 1, "🦷 Лікар"⟩ 0 initState).st.ud.errors = some e ∧
      k < qs.length ∧ e ≤ k :=
  C7_asking_invariant _
    (Reachable.next initState ⟨some 1, "🦷 Лікар"⟩ 0 Reachable.init)
    (by decide)

/-- C2: from every reachable session in ASKING, an admitted (not
deduplicated) answer token A/B/C is processed without any raised error: the
engine either sends the next question of the stored role (staying in
ASKING) or sends the final summary and completes — the content-table
accesses are always in bounds. -/
theorem C2_answer_safe (s : BotState) (h : Reachable s)
    (hc : s.conv = some ConvState.asking) (ev : Event) (now : ℚ)
    (ht : ev.text = "A" ∨ ev.text = "B" ∨ ev.text = "C")
    (hd : (dedupe s.ud ev).1 = false) :
    (step true ev now s).err = none ∧
    ((∃ q, (step true ev now s).out = [(q, ABC_KB)] ∧
        (step true ev now s).st.conv = some ConvState.asking) ∨
     (∃ e2, (step true ev now s).out = [(final_text e2, ROLE_KB)] ∧
        (step true ev now s).st.conv = none)) := by
  obtain ⟨r, qs, k, e, hr, hq, hlen, hi, hk, he, hek⟩ :=
    (reachable_inv s h).2 hc
  have hrt : route s.conv ev.text = some .hAnswer := by
    rw [hc]; rcases ht with h2 | h2 | h2 <;> rw [h2] <;> rfl
  by_cases hk5 : k + 1 < 5
  · obtain ⟨q, q2, hgk, hgk2, heq⟩ := handle_answer_mid s.ud r qs k e ev now
      hr hi he hq hlen ht hd hk5
    obtain ⟨h1, h2, h3⟩ := step_of_ok s ev now .hAnswer (some .asking) hrt
      (by rw [runHandler, heq])
    refine ⟨h2, .inl ⟨q2.1, ?_, by rw [h1]⟩⟩
    rw [h3, runHandler, heq]
  · obtain ⟨q, hgk, heq⟩ := handle_answer_last s.ud r qs k e ev now
      hr hi he hq hlen ht hd hk hk5
    obtain ⟨h1, h2, h3⟩ := step_of_ok s ev now .hAnswer none hrt
      (by rw [runHandler, heq])
    refine ⟨h2, .inr ⟨if ev.text = q.2 then e else e + 1, ?_, by rw [h1]⟩⟩
    rw [h3, runHandler, heq]

theorem C2_answer_safe_witness :
    (step true ⟨some 2, "B"⟩ 0
        (step true ⟨some 1, "🦷 Лікар"⟩ 0 initState).st).err = none ∧
    ((∃ q, (step true ⟨some 2, "B"⟩ 0
        (step true ⟨some 1, "🦷 Лікар"⟩ 0 initState).st).out = [(q, ABC_KB)] ∧
        (step true ⟨some 2, "B"⟩ 0
          (step true ⟨some 1, "🦷 Лікар"⟩ 0 initState).st).st.conv =
          some ConvState.asking) ∨
     (∃ e2, (step true ⟨some 2, "B"⟩ 0
        (step true ⟨some 1, "🦷 Лікар"⟩ 0 initState).st).out =
          [(final_text e2, ROLE_KB)] ∧
        (step true ⟨some 2, "B"⟩ 0
          (step true ⟨some 1, "🦷 Лікар"⟩ 0 initState).st).st.conv = none)) :=
  C2_answer_safe _
    (Reachable.next initState ⟨some 1, "🦷 Лікар"⟩ 0 Reachable.init)
    (by decide) ⟨some 2, "B"⟩ 0 (.inr (.inl rfl)) (by decide)

/-- C8: when a retryable failure is a rate-limit error carrying a non-zero
wait hint, the delay before the next attempt is exactly the hinted
duration — for every configuration, attempt number and jitter sample, so
the delay ladder is ignored and no jitter is added. -/
theorem C8_retry_after (cfg : RetryConfig) (attempt : Nat) (hint u : ℚ)
    (hh : hint ≠ 0) :
    retryDelay cfg attempt (.retryAfter hint) u = hint := by
  simp [retryDelay, hh]

theorem C8_retry_after_witness :
    retryDelay TG_RETRY 1 (.retryAfter (15 / 2)) (1 / 2) = 15 / 2 :=
  C8_retry_after TG_RETRY 1 (15 / 2) (1 / 2) (by norm_num)

/-- C9: an inbound update whose id is absent is never reported as a
duplicate, is processed, and leaves `user_data` — in particular the
recorded `_last_update_id` — completely unchanged. -/
theorem C9_dedupe_idless (ud : UserData) (t : String) :
    dedupe ud ⟨none, t⟩ = (false, ud) := rfl

theorem dedupe_marker (ud : UserData) (ev : Event) (uid : Nat)
    (hu : ev.updateId = some uid) (hd : (dedupe ud ev).1 = false) :
    (dedupe ud ev).2.lastUpdateId = some uid := by
  simp only [dedupe, hu] at hd ⊢
  by_cases he : ud.lastUpdateId = some uid
  · simp [he] at hd
  · simp [he]

theorem dedupe_fresh (ud : UserData) (uid : Nat) (t : String)
    (hd : (dedupe ud ⟨some uid, t⟩).1 = false) :
    dedupe ud ⟨some uid, t⟩ = (false, { ud with lastUpdateId := some uid }) := by
  simp only [dedupe] at hd ⊢
  by_cases he : ud.lastUpdateId = some uid
  · simp [he] at hd
  · simp [he]

theorem step_of_err (ok : Bool) (s : BotState) (ev : Event) (now : ℚ)
    (hdl : Handler) (ex : Exn) (hrt : route s.conv ev.text = some hdl)
    (hres : (runHandler hdl ok s.ud ev now).res = .error ex) :
    (step ok ev now s).st = ⟨s.conv, (runHandler hdl ok s.ud ev now).ud⟩ ∧
    (step ok ev now s).err = some ex ∧
    (step ok ev now s).out = (runHandler hdl ok s.ud ev now).out := by
  simp only [step, hrt]
  rcases hr : runHandler hdl ok s.ud ev now with ⟨ud2, out2, res2⟩
  rw [hr] at hres
  cases res2 with
  | ok c => exact absurd hres (by simp)
  | error ex2 =>
      cases hres
      exact ⟨rfl, rfl, rfl⟩

theorem cancel_notdup (ud : UserData) (ev : Event)
    (hd : (dedupe ud ev).1 = false) :
    cancel true ud ev =
      ⟨UserData.empty, [(cancel_text, ROLE_KB)], .ok (some .choosing)⟩ := by
  simp [cancel, hd]

/-- C6: starting a quiz for a role with its 5-question list and submitting
any 5 answer tokens from {A, B, C}, the run ends with the session cleared
and the last send reporting `final_text E` where `E` is exactly the number
of positions whose token differs from the content table's correct choice;
the reported `correct_count = 5 − E` equals the number of matching
positions. -/
theorem C6_scoring (r : String) (qs : List (String × String))
    (hq : lookupQ r = some qs) (toks : List String) (hlen5 : toks.length = 5)
    (htoks : ∀ t ∈ toks, t = "A" ∨ t = "B" ∨ t = "C")
    (m : Option Nat) (ts : Option ℚ) :
    (∃ pre, answersRun ⟨some .asking, ⟨some r, some 0, some 0, m, ts⟩⟩ toks =
      (⟨none, UserData.empty⟩,
       pre ++ [(final_text (wrongFrom qs 0 toks), ROLE_KB)])) ∧
    (5 : Int) - wrongFrom qs 0 toks = rightFrom qs 0 toks := by
  have hlen := lookupQ_length r qs hq
  obtain ⟨pre, hrun⟩ := answersRun_spec r qs hq hlen toks 0 0 m ts
    (by omega) (by intro hnil; rw [hnil] at hlen5; simp at hlen5) htoks
  have harg : (0 : Nat) + wrongFrom qs 0 toks = wrongFrom qs 0 toks :=
    Nat.zero_add _
  rw [harg] at hrun
  refine ⟨⟨pre, hrun⟩, ?_⟩
  have hsum := wrong_add_right qs 0 toks (by omega)
  omega

theorem C6_scoring_witness :
    (∃ pre, answersRun
        ⟨some .asking, ⟨some ("Лікар"), some 0, some 0, none, none⟩⟩
        ["B", "A", "B", "B", "B"] =
      (⟨none, UserData.empty⟩,
       pre ++ [(final_text (wrongFrom (QUESTIONS.get ⟨1, by decide⟩).2 0
         ["B", "A", "B", "B", "B"]), ROLE_KB)])) ∧
    (5 : Int) - wrongFrom (QUESTIONS.get ⟨1, by decide⟩).2 0
        ["B", "A", "B", "B", "B"] =
      rightFrom (QUESTIONS.get ⟨1, by decide⟩).2 0 ["B", "A", "B", "B", "B"] :=
  C6_scoring ("Лікар") (QUESTIONS.get ⟨1, by decide⟩).2 rfl
    ["B", "A", "B", "B", "B"] rfl (by decide) none none

/-- C3 counterexample: the claim fails as stated. Submitting the exit-button
event (id 5) twice in immediate succession from the initial state produces
an outbound send BOTH times: the handler clears `user_data`, erasing the
recorded `_last_update_id`, so the redelivered duplicate is processed
again. -/
theorem C3_counterexample :
    (step true ⟨some 5, "Завершити"⟩ 0 initState).out =
      [(cancel_text, ROLE_KB)] ∧
    (step true ⟨some 5, "Завершити"⟩ 0
        (step true ⟨some 5, "Завершити"⟩ 0 initState).st).out =
      [(cancel_text, ROLE_KB)] :=
  ⟨rfl, rfl⟩

/-- C3 amended: duplicate suppression does hold for the events whose
processing leaves the dedup marker in place — in particular any mid-quiz
answer: the first submission produces exactly one transition and one send,
and the immediate resubmission of the same event changes nothing and emits
no output. (Events whose handler clears `user_data` — start, exit, the
final answer — erase the marker, and their redelivery is processed again,
as the counterexample shows.) -/
theorem C3_amended_mid_quiz (s : BotState) (h : Reachable s)
    (hc : s.conv = some ConvState.asking) (uid : Nat) (t : String)
    (now now2 : ℚ) (ht : t = "A" ∨ t = "B" ∨ t = "C")
    (hd : (dedupe s.ud ⟨some uid, t⟩).1 = false)
    (k : Nat) (hik : s.ud.i = some k) (hk5 : k + 1 < 5) :
    (∃ q, (step true ⟨some uid, t⟩ now s).out = [(q, ABC_KB)]) ∧
    (step true ⟨some uid, t⟩ now s).st.conv = some ConvState.asking ∧
    (step true ⟨some uid, t⟩ now2 (step true ⟨some uid, t⟩ now s).st).st =
      (step true ⟨some uid, t⟩ now s).st ∧
    (step true ⟨some uid, t⟩ now2 (step true ⟨some uid, t⟩ now s).st).out =
      [] ∧
    (step true ⟨some uid, t⟩ now2 (step true ⟨some uid, t⟩ now s).st).err =
      none := by
  obtain ⟨r, qs, k2, e, hr, hq, hlen, hi, hk, he, hek⟩ :=
    (reachable_inv s h).2 hc
  have hkk : k2 = k := by rw [hik] at hi; exact (Option.some.inj hi).symm
  rw [hkk] at hi hk hek
  have hrt : route s.conv t = some .hAnswer := by
    rw [hc]; rcases ht with h2 | h2 | h2 <;> rw [h2] <;> rfl
  obtain ⟨q, q2, hgk, hgk2, heq⟩ := handle_answer_mid s.ud r qs k e
    ⟨some uid, t⟩ now hr hi he hq hlen ht hd hk5
  obtain ⟨h1, h2, h3⟩ := step_of_ok s ⟨some uid, t⟩ now .hAnswer
    (some .asking) hrt (by rw [runHandler, heq])
  have hud1 : (runHandler .hAnswer true s.ud ⟨some uid, t⟩ now).ud =
      { (dedupe s.ud ⟨some uid, t⟩).2 with
          i := some (k + 1),
          errors := some (if t = q.2 then e else e + 1) } := by
    rw [runHandler, heq]
  have hmark : (runHandler .hAnswer true s.ud ⟨some uid, t⟩ now).ud.lastUpdateId
      = some uid := by
    rw [hud1]
    exact dedupe_marker s.ud ⟨some uid, t⟩ uid rfl hd
  refine ⟨⟨q2.1, by rw [h3, runHandler, heq]⟩, by rw [h1], ?_⟩
  have hdup : (dedupe (runHandler .hAnswer true s.ud ⟨some uid, t⟩ now).ud
      ⟨some uid, t⟩).1 = true := by
    simp [dedupe, hmark]
  have heq2 := handle_answer_dup
    (runHandler .hAnswer true s.ud ⟨some uid, t⟩ now).ud ⟨some uid, t⟩ now2 hdup
  have hrt2 : route (some ConvState.asking) t = some .hAnswer := by
    rcases ht with h2 | h2 | h2 <;> rw [h2] <;> rfl
  obtain ⟨g1, g2, g3⟩ := step_of_ok ⟨some .asking,
      (runHandler .hAnswer true s.ud ⟨some uid, t⟩ now).ud⟩ ⟨some uid, t⟩
    now2 .hAnswer (some .asking) hrt2 (by rw [runHandler, heq2])
  rw [h1]
  refine ⟨?_, by rw [g3, runHandler, heq2], g2⟩
  rw [g1, runHandler, heq2]

theorem C3_amended_mid_quiz_witness :
    (∃ q, (step true ⟨some 2, "B"⟩ 0
        (step true ⟨some 1, "🦷 Лікар"⟩ 0 initState).st).out = [(q, ABC_KB)]) ∧
    (step true ⟨some 2, "B"⟩ 0
        (step true ⟨some 1, "🦷 Лікар"⟩ 0 initState).st).st.conv =
      some ConvState.asking ∧
    (step true ⟨some 2, "B"⟩ 0 (step true ⟨some 2, "B"⟩ 0
        (step true ⟨some 1, "🦷 Лікар"⟩ 0 initState).st).st).st =
      (step true ⟨some 2, "B"⟩ 0
        (step true ⟨some 1, "🦷 Лікар"⟩ 0 initState).st).st ∧
    (step true ⟨some 2, "B"⟩ 0 (step true ⟨some 2, "B"⟩ 0
        (step true ⟨some 1, "🦷 Лікар"⟩ 0 initState).st).st).out = [] ∧
    (step true ⟨some 2, "B"⟩ 0 (step true ⟨some 2, "B"⟩ 0
        (step true ⟨some 1, "🦷 Лікар"⟩ 0 initState).st).st).err = none :=
  C3_amended_mid_quiz _
    (Reachable.next initState ⟨some 1, "🦷 Лікар"⟩ 0 Reachable.init)
    (by decide) 2 ("B") 0 0 (.inr (.inl rfl)) (by decide) 0 (by decide)
    (by omega)

/-- C4 counterexample: the claim fails as stated. "ЗАВЕРШИТИ" is the exit
phrase in an accepted normalization (mixed case — `is_exit` accepts it),
yet sent to a session in ASKING it does not transition to CHOOSING_ROLE
and does not clear the role field: the regex routing layer only dispatches
the two exact button strings to the exit handler, so the text falls to the
reprompt fallback and the session stays in ASKING with its role intact. -/
theorem C4_counterexample :
    is_exit ("ЗАВЕРШИТИ") = true ∧
    (step true ⟨some 1, "🦷 Лікар"⟩ 0 initState).st.conv =
      some ConvState.asking ∧
    (step true ⟨some 2, "ЗАВЕРШИТИ"⟩ 0
        (step true ⟨some 1, "🦷 Лікар"⟩ 0 initState).st).st.conv =
      some ConvState.asking ∧
    (step true ⟨some 2, "ЗАВЕРШИТИ"⟩ 0
        (step true ⟨some 1, "🦷 Лікар"⟩ 0 initState).st).st.ud.role =
      some ("Лікар") := by
  have hconv : (step true ⟨some 1, "🦷 Лікар"⟩ 0 initState).st.conv =
      some ConvState.asking := by decide
  have hrt : route (step true ⟨some 1, "🦷 Лікар"⟩ 0 initState).st.conv
      ("ЗАВЕРШИТИ") = some .hAskAgain := by
    rw [hconv]; rfl
  obtain ⟨hres, hfr, hfi, hfe⟩ := ask_again_spec
    (step true ⟨some 1, "🦷 Лікар"⟩ 0 initState).st.ud
    ⟨some 2, "ЗАВЕРШИТИ"⟩ 0
  obtain ⟨h1, h2, h3⟩ := step_of_ok
    (step true ⟨some 1, "🦷 Лікар"⟩ 0 initState).st
    ⟨some 2, "ЗАВЕРШИТИ"⟩ 0 .hAskAgain (some .asking) hrt hres
  refine ⟨by decide, hconv, by rw [h1], ?_⟩
  rw [h1]
  show (runHandler .hAskAgain true _ _ _).ud.role = _
  rw [show runHandler .hAskAgain true
      (step true ⟨some 1, "🦷 Лікар"⟩ 0 initState).st.ud
      ⟨some 2, "ЗАВЕРШИТИ"⟩ 0 =
    ask_again true (step true ⟨some 1, "🦷 Лікар"⟩ 0 initState).st.ud
      ⟨some 2, "ЗАВЕРШИТИ"⟩ 0 from rfl, hfr]
  decide

/-- C4 amended: an inbound text equal to one of the two exact exit-button
strings ("🔚 Завершити" / "Завершити"), when not deduplicated, transitions
every state (no conversation, CHOOSING_ROLE and ASKING alike) to
CHOOSING_ROLE and clears all session fields; the other accepted
normalizations of the exit phrase (mixed case, suffix forms) do not exit
from ASKING, as the counterexample shows. -/
theorem C4_amended_exact_exit (s : BotState) (ev : Event) (now : ℚ)
    (ht : ev.text ∈ EXIT_BUTTONS) (hd : (dedupe s.ud ev).1 = false) :
    (step true ev now s).st = ⟨some ConvState.choosing, UserData.empty⟩ ∧
    (step true ev now s).out = [(cancel_text, ROLE_KB)] ∧
    (step true ev now s).err = none := by
  have hcan := cancel_notdup s.ud ev hd
  have hrt : route s.conv ev.text = some .hCancel := by
    simp only [EXIT_BUTTONS, List.mem_cons, List.not_mem_nil, or_false] at ht
    rcases ht with h | h <;> rw [h] <;>
      (rcases s.conv with _ | c
       · rfl
       · cases c <;> rfl)
  obtain ⟨h1, h2, h3⟩ := step_of_ok s ev now .hCancel (some .choosing) hrt
    (by rw [runHandler, hcan])
  refine ⟨?_, by rw [h3, runHandler, hcan], h2⟩
  rw [h1, runHandler, hcan]

theorem C4_amended_exact_exit_witness :
    (step true ⟨some 8, "🔚 Завершити"⟩ 0
        ⟨some ConvState.asking,
         ⟨some ("Лікар"), some 2, some 1, some 7, none⟩⟩).st =
      ⟨some ConvState.choosing, UserData.empty⟩ ∧
    (step true ⟨some 8, "🔚 Завершити"⟩ 0
        ⟨some ConvState.asking,
         ⟨some ("Лікар"), some 2, some 1, some 7, none⟩⟩).out =
      [(cancel_text, ROLE_KB)] ∧
    (step true ⟨some 8, "🔚 Завершити"⟩ 0
        ⟨some ConvState.asking,
         ⟨some ("Лікар"), some 2, some 1, some 7, none⟩⟩).err = none :=
  C4_amended_exact_exit
    ⟨some ConvState.asking, ⟨some ("Лікар"), some 2, some 1, some 7, none⟩⟩
    ⟨some 8, "🔚 Завершити"⟩ 0 (by decide) (by decide)

/-- C5 counterexample: the claim fails as stated. With the session choosing
a role, event id 7 selects a role and its reply send fails after the retry
budget — yet the recorded `_last_update_id = 7` and the new `role`/`i`
fields ARE persisted (only the conversation label stays put), and the
redelivered identical event is deduplicated and skipped: no send, no
change — the transition is NOT re-attempted. -/
theorem C5_counterexample :
    (step false ⟨some 7, "🦷 Лікар"⟩ 0
        ⟨some ConvState.choosing, UserData.empty⟩).err = some Exn.sendFail ∧
    (step false ⟨some 7, "🦷 Лікар"⟩ 0
        ⟨some ConvState.choosing, UserData.empty⟩).out = [] ∧
    (step false ⟨some 7, "🦷 Лікар"⟩ 0
        ⟨some ConvState.choosing, UserData.empty⟩).st.ud.lastUpdateId =
      some 7 ∧
    (step false ⟨some 7, "🦷 Лікар"⟩ 0
        ⟨some ConvState.choosing, UserData.empty⟩).st.ud.role =
      some ("Лікар") ∧
    (step true ⟨some 7, "🦷 Лікар"⟩ 0 (step false ⟨some 7, "🦷 Лікар"⟩ 0
        ⟨some ConvState.choosing, UserData.empty⟩).st).st =
      (step false ⟨some 7, "🦷 Лікар"⟩ 0
        ⟨some ConvState.choosing, UserData.empty⟩).st ∧
    (step true ⟨some 7, "🦷 Лікар"⟩ 0 (step false ⟨some 7, "🦷 Лікар"⟩ 0
        ⟨some ConvState.choosing, UserData.empty⟩).st).out = [] :=
  ⟨rfl, rfl, rfl, rfl, rfl, rfl⟩

theorem choose_role_sendfail (ud : UserData) (uid : Nat) (t : String)
    (ht : t ∈ ROLE_BUTTONS) (hd : (dedupe ud ⟨some uid, t⟩).1 = false) :
    ∃ role, choose_role false ud ⟨some uid, t⟩ =
        ⟨⟨some role, some 0, some 0, some uid, none⟩, [],
         .error .sendFail⟩ := by
  have hdd := dedupe_fresh ud uid t hd
  simp only [ROLE_BUTTONS, List.mem_cons, List.not_mem_nil, or_false] at ht
  rcases ht with h | h | h <;> subst h
  · refine ⟨"Керівник", ?_⟩
    obtain ⟨qs, hq, hlen⟩ := lookupQ_shape ("Керівник") (.inl rfl)
    obtain ⟨q0, h0⟩ : ∃ q0, qs[0]? = some q0 :=
      ⟨_, List.getElem?_eq_getElem (by omega)⟩
    have e1 : (pyStrip ("👩‍💼 Керівник") ∈ EXIT_BUTTONS ∨
        is_exit (pyStrip ("👩‍💼 Керівник")) = true) = False :=
      eq_false (by decide)
    have e2 : (pyStrip ("👩‍💼 Керівник") ∈ ROLE_BUTTONS) = True :=
      eq_true (by decide)
    have e3 : strContains (pyStrip ("👩‍💼 Керівник")) ("Керівник") = true := by
      decide
    simp [choose_role, hdd, e1, e2, e3, hq, h0]
  · refine ⟨"Лікар", ?_⟩
    obtain ⟨qs, hq, hlen⟩ := lookupQ_shape ("Лікар") (.inr (.inl rfl))
    obtain ⟨q0, h0⟩ : ∃ q0, qs[0]? = some q0 :=
      ⟨_, List.getElem?_eq_getElem (by omega)⟩
    have e1 : (pyStrip ("🦷 Лікар") ∈ EXIT_BUTTONS ∨
        is_exit (pyStrip ("🦷 Лікар")) = true) = False :=
      eq_false (by decide)
    have e2 : (pyStrip ("🦷 Лікар") ∈ ROLE_BUTTONS) = True :=
      eq_true (by decide)
    have e3 : strContains (pyStrip ("🦷 Лікар")) ("Керівник") = false := by
      decide
    have e4 : strContains (pyStrip ("🦷 Лікар")) ("Лікар") = true := by decide
    simp [choose_role, hdd, e1, e2, e3, e4, hq, h0]
  · refine ⟨"Адміністратор", ?_⟩
    obtain ⟨qs, hq, hlen⟩ := lookupQ_shape ("Адміністратор") (.inr (.inr rfl))
    obtain ⟨q0, h0⟩ : ∃ q0, qs[0]? = some q0 :=
      ⟨_, List.getElem?_eq_getElem (by omega)⟩
    have e1 : (pyStrip ("💬 Адміністратор") ∈ EXIT_BUTTONS ∨
        is_exit (pyStrip ("💬 Адміністратор")) = true) = False :=
      eq_false (by decide)
    have e2 : (pyStrip ("💬 Адміністратор") ∈ ROLE_BUTTONS) = True :=
      eq_true (by decide)
    have e3 : strContains (pyStrip ("💬 Адміністратор")) ("Керівник") =
        false := by decide
    have e4 : strContains (pyStrip ("💬 Адміністратор")) ("Лікар") =
        false := by decide
    simp [choose_role, hdd, e1, e2, e3, e4, hq, h0]

/-- C5 amended: when the reply send of the role-selection transition fails
after the retry budget, the session mutations made before the send are
persisted anyway — the recorded last-processed event id and the fresh
`role`/`i`/`errors` fields — while only the conversation label is kept;
a redelivered identical event is then deduplicated and skipped (no output,
no state change) instead of re-attempting the transition. -/
theorem C5_amended_persist (ud : UserData) (uid : Nat) (t : String)
    (now now2 : ℚ) (ht : t ∈ ROLE_BUTTONS)
    (hd : (dedupe ud ⟨some uid, t⟩).1 = false) :
    (step false ⟨some uid, t⟩ now ⟨some ConvState.choosing, ud⟩).err =
      some Exn.sendFail ∧
    (step false ⟨some uid, t⟩ now ⟨some ConvState.choosing, ud⟩).out = [] ∧
    (step false ⟨some uid, t⟩ now
        ⟨some ConvState.choosing, ud⟩).st.conv = some ConvState.choosing ∧
    (step false ⟨some uid, t⟩ now
        ⟨some ConvState.choosing, ud⟩).st.ud.lastUpdateId = some uid ∧
    (step false ⟨some uid, t⟩ now
        ⟨some ConvState.choosing, ud⟩).st.ud.i = some 0 ∧
    (step true ⟨some uid, t⟩ now2 (step false ⟨some uid, t⟩ now
        ⟨some ConvState.choosing, ud⟩).st).st =
      (step false ⟨some uid, t⟩ now ⟨some ConvState.choosing, ud⟩).st ∧
    (step true ⟨some uid, t⟩ now2 (step false ⟨some uid, t⟩ now
        ⟨some ConvState.choosing, ud⟩).st).out = [] ∧
    (step true ⟨some uid, t⟩ now2 (step false ⟨some uid, t⟩ now
        ⟨some ConvState.choosing, ud⟩).st).err = none := by
  obtain ⟨role, hcr⟩ := choose_role_sendfail ud uid t ht hd
  have hrt : route (some ConvState.choosing) t = some .hChooseRole := by
    simp only [ROLE_BUTTONS, List.mem_cons, List.not_mem_nil, or_false] at ht
    rcases ht with h | h | h <;> rw [h] <;> rfl
  obtain ⟨h1, h2, h3⟩ := step_of_err false ⟨some ConvState.choosing, ud⟩
    ⟨some uid, t⟩ now .hChooseRole .sendFail hrt (by rw [runHandler, hcr])
  have hudv : (runHandler .hChooseRole false
      (⟨some ConvState.choosing, ud⟩ : BotState).ud ⟨some uid, t⟩ now).ud =
      ⟨some role, some 0, some 0, some uid, none⟩ := by
    rw [runHandler, hcr]
  have hdup : choose_role true
      (⟨some role, some 0, some 0, some uid, none⟩ : UserData)
      ⟨some uid, t⟩ =
      ⟨⟨some role, some 0, some 0, some uid, none⟩, [],
       .ok (some .choosing)⟩ := by
    simp [choose_role, dedupe]
  obtain ⟨g1, g2, g3⟩ := step_of_ok
    ⟨some ConvState.choosing, ⟨some role, some 0, some 0, some uid, none⟩⟩
    ⟨some uid, t⟩ now2 .hChooseRole (some .choosing) hrt
    (by rw [runHandler, hdup])
  have hst : (step false ⟨some uid, t⟩ now
      ⟨some ConvState.choosing, ud⟩).st =
      ⟨some ConvState.choosing,
       ⟨some role, some 0, some 0, some uid, none⟩⟩ := by
    rw [h1, hudv]
  refine ⟨h2, by rw [h3, runHandler, hcr], by rw [hst], by rw [hst],
    by rw [hst], ?_, ?_, ?_⟩
  · rw [hst, g1, runHandler, hdup]
  · rw [hst, g3, runHandler, hdup]
  · rw [hst, g2]

theorem C5_amended_persist_witness :
    (step false ⟨some 7, "👩‍💼 Керівник"⟩ 0
        ⟨some ConvState.choosing, UserData.empty⟩).err = some Exn.sendFail ∧
    (step false ⟨some 7, "👩‍💼 Керівник"⟩ 0
        ⟨some ConvState.choosing, UserData.empty⟩).out = [] ∧
    (step false ⟨some 7, "👩‍💼 Керівник"⟩ 0
        ⟨some ConvState.choosing, UserData.empty⟩).st.conv =
      some ConvState.choosing ∧
    (step false ⟨some 7, "👩‍💼 Керівник"⟩ 0
        ⟨some ConvState.choosing, UserData.empty⟩).st.ud.lastUpdateId =
      some 7 ∧
    (step false ⟨some 7, "👩‍💼 Керівник"⟩ 0
        ⟨some ConvState.choosing, UserData.empty⟩).st.ud.i = some 0 ∧
    (step true ⟨some 7, "👩‍💼 Керівник"⟩ 0
        (step false ⟨some 7, "👩‍💼 Керівник"⟩ 0
          ⟨some ConvState.choosing, UserData.empty⟩).st).st =
      (step false ⟨some 7, "👩‍💼 Керівник"⟩ 0
        ⟨some ConvState.choosing, UserData.empty⟩).st ∧
    (step true ⟨some 7, "👩‍💼 Керівник"⟩ 0
        (step false ⟨some 7, "👩‍💼 Керівник"⟩ 0
          ⟨some ConvState.choosing, UserData.empty⟩).st).out = [] ∧
    (step true ⟨some 7, "👩‍💼 Керівник"⟩ 0
        (step false ⟨some 7, "👩‍💼 Керівник"⟩ 0
          ⟨some ConvState.choosing, UserData.empty⟩).st).err = none :=
  C5_amended_persist UserData.empty 7 ("👩‍💼 Керівник") 0 0 (by decide)
    (by decide)

/-- C10 counterexample: the claim fails as stated. An answer event (id 5)
arriving while the session lacks a stored role/index does not fault and
returns to CHOOSING_ROLE — but it sends nothing (not the welcome prompt)
and does not clear the session: the `start` fallback is short-circuited by
its own dedup check because `handle_answer` just recorded the id, so the
only session change is the recorded event id. -/
theorem C10_counterexample :
    (step true ⟨some 5, "A"⟩ 0
        ⟨some ConvState.asking, UserData.empty⟩).err = none ∧
    (step true ⟨some 5, "A"⟩ 0
        ⟨some ConvState.asking, UserData.empty⟩).st.conv =
      some ConvState.choosing ∧
    (step true ⟨some 5, "A"⟩ 0
        ⟨some ConvState.asking, UserData.empty⟩).out = [] ∧
    (step true ⟨some 5, "A"⟩ 0
        ⟨some ConvState.asking, UserData.empty⟩).st.ud =
      { UserData.empty with lastUpdateId := some 5 } :=
  ⟨rfl, rfl, rfl, rfl⟩

/-- C10 amended: an admitted answer token handled in ASKING while the
session lacks `role` or `i` never faults and always ends in CHOOSING_ROLE;
but only an id-less event gets the session cleared and the welcome prompt
sent — an event carrying an id is silently swallowed by the dedup check
inside the `start` fallback, its only effect being the recorded id. -/
theorem C10_amended (ud : UserData) (ev : Event) (now : ℚ)
    (hri : ud.role = none ∨ ud.i = none)
    (ht : ev.text = "A" ∨ ev.text = "B" ∨ ev.text = "C")
    (hd : (dedupe ud ev).1 = false) :
    (step true ev now ⟨some ConvState.asking, ud⟩).err = none ∧
    (step true ev now ⟨some ConvState.asking, ud⟩).st.conv =
      some ConvState.choosing ∧
    (ev.updateId = none →
      (step true ev now ⟨some ConvState.asking, ud⟩).out =
        [(welcome_text, ROLE_KB)] ∧
      (step true ev now ⟨some ConvState.asking, ud⟩).st.ud =
        UserData.empty) ∧
    (∀ uid, ev.updateId = some uid →
      (step true ev now ⟨some ConvState.asking, ud⟩).out = [] ∧
      (step true ev now ⟨some ConvState.asking, ud⟩).st.ud =
        { ud with lastUpdateId := some uid }) := by
  have hrt : route (some ConvState.asking) ev.text = some .hAnswer := by
    rcases ht with h | h | h <;> rw [h] <;> rfl
  have heq := handle_answer_norole ud ev now hri hd
  rw [start_after_dedupe ud ev hd] at heq
  cases hu : ev.updateId with
  | none =>
      rw [hu] at heq
      obtain ⟨h1, h2, h3⟩ := step_of_ok ⟨some ConvState.asking, ud⟩ ev now
        .hAnswer (some .choosing) hrt (by rw [runHandler, heq])
      refine ⟨h2, by rw [h1],
        fun _ => ⟨by rw [h3, runHandler, heq], by rw [h1, runHandler, heq]⟩,
        fun uid huid => absurd huid (by simp)⟩
  | some uid =>
      rw [hu] at heq
      obtain ⟨h1, h2, h3⟩ := step_of_ok ⟨some ConvState.asking, ud⟩ ev now
        .hAnswer (some .choosing) hrt (by rw [runHandler, heq])
      refine ⟨h2, by rw [h1], fun hnone => absurd hnone (by simp),
        fun uid2 huid => ?_⟩
      cases huid
      exact ⟨by rw [h3, runHandler, heq], by rw [h1, runHandler, heq]⟩

theorem C10_amended_witness :
    (step true ⟨none, "B"⟩ 0
        ⟨some ConvState.asking,
         ⟨some ("Лікар"), none, some 0, none, none⟩⟩).err = none ∧
    (step true ⟨none, "B"⟩ 0
        ⟨some ConvState.asking,
         ⟨some ("Лікар"), none, some 0, none, none⟩⟩).st.conv =
      some ConvState.choosing ∧
    ((⟨none, "B"⟩ : Event).updateId = none →
      (step true ⟨none, "B"⟩ 0
          ⟨some ConvState.asking,
           ⟨some ("Лікар"), none, some 0, none, none⟩⟩).out =
        [(welcome_text, ROLE_KB)] ∧
      (step true ⟨none, "B"⟩ 0
          ⟨some ConvState.asking,
           ⟨some ("Лікар"), none, some 0, none, none⟩⟩).st.ud =
        UserData.empty) ∧
    (∀ uid, (⟨none, "B"⟩ : Event).updateId = some uid →
      (step true ⟨none, "B"⟩ 0
          ⟨some ConvState.asking,
           ⟨some ("Лікар"), none, some 0, none, none⟩⟩).out = [] ∧
      (step true ⟨none, "B"⟩ 0
          ⟨some ConvState.asking,
           ⟨some ("Лікар"), none, some 0, none, none⟩⟩).st.ud =
        { (⟨some ("Лікар"), none, some 0, none, none⟩ : UserData) with
            lastUpdateId := some uid }) :=
  C10_amended ⟨some ("Лікар"), none, some 0, none, none⟩ ⟨none, "B"⟩ 0
    (.inr rfl) (.inr (.inl rfl)) rfl

end CXBot
